import Mathlib

/-!
Verification of the DOCX content-extraction pipeline of `app.py`
(`news_ai_mode` repository).

Python strings are modelled as `List Char` (a Python `str` is a sequence of
code points).  Every definition below is translated from the source file
`src/app.py`; line references are given in the doc comments.
-/

namespace NewsAi

/-! ## Python string primitives -/

/-- Python `str.strip()` whitespace class (ASCII part of Python's `\s`):
space, tab, newline, carriage return, vertical tab, form feed. -/
def pyIsSpace (c : Char) : Bool :=
  c = ' ' || c = '\t' || c = '\n' || c = '\r' || c = '\x0b' || c = '\x0c'

/-- Python `str.strip()`: drop leading and trailing whitespace. -/
def pyStrip (l : List Char) : List Char :=
  ((l.dropWhile pyIsSpace).reverse.dropWhile pyIsSpace).reverse

/-- Python substring test `needle in hay`. -/
def containsSub : List Char → List Char → Bool
  | [], needle => needle.isEmpty
  | l@(_ :: t), needle => needle.isPrefixOf l || containsSub t needle

/-- Helper: prepend a character to the first chunk of a split result. -/
def consHead (c : Char) : List (List Char) → List (List Char)
  | [] => [[c]]
  | h :: t => (c :: h) :: t

/-- Helper: prepend a chunk to the first chunk of a split result. -/
def consChunk (p : List Char) : List (List Char) → List (List Char)
  | [] => [p]
  | h :: t => (p ++ h) :: t

/-- Python `str.split(sep)` for a single-character separator
(used as `content.split('\n')` at line 47 and `url.split('/')` at line 147). -/
def splitChar (sep : Char) : List Char → List (List Char)
  | [] => [[]]
  | c :: rest => if c = sep then [] :: splitChar sep rest else consHead c (splitChar sep rest)

/-- Python `str.split("\n\n")`: split on the two-character separator,
scanning left to right, non-overlapping. -/
def splitNl2 : List Char → List (List Char)
  | [] => [[]]
  | [c] => [[c]]
  | c :: d :: rest =>
    if c = '\n' ∧ d = '\n' then [] :: splitNl2 rest
    else consHead c (splitNl2 (d :: rest))

/-- Python `sep.join(xs)`. -/
def joinWith (sep : List Char) : List (List Char) → List Char
  | [] => []
  | [x] => x
  | x :: y :: rest => x ++ sep ++ joinWith sep (y :: rest)

/-- Python `int(digits)` on a run of decimal digits. -/
def digitsToNat (ds : List Char) : Nat :=
  ds.foldl (fun a c => a * 10 + (c.toNat - '0'.toNat)) 0

/-! ## Regex search models

The four `re.search` calls of `extract_data_from_docx_content`
(lines 27, 31, 35, 39) each begin with a literal, so leftmost search
reduces to scanning occurrences of that literal left to right and, at
each occurrence, matching the rest of the pattern against the tail. -/

/-- Length of the leading whitespace run (what greedy `\s*` can consume). -/
def wsRunLen (l : List Char) : Nat := (l.takeWhile pyIsSpace).length

/-- Leftmost search: at each occurrence of the literal `lit`, try the tail
matcher `m`; the first success wins (models `re.search` for a pattern
whose first element is the literal `lit`). -/
def scanFor {α : Type} (lit : List Char) (m : List Char → Option α) : List Char → Option α
  | [] => none
  | l@(_ :: rest) =>
    if lit.isPrefixOf l then
      match m (l.drop lit.length) with
      | some x => some x
      | none => scanFor lit m rest
    else scanFor lit m rest

/-- Backtracking of greedy `\s*` followed by lazy `(.+?)`: try widths
`w, w-1, …, 0`; a width succeeds when a character matchable by `.`
(anything but `'\n'`) stands right after it. -/
def chooseW (tail : List Char) : Nat → Option Nat
  | 0 =>
    match tail.get? 0 with
    | some c => if c ≠ '\n' then some 0 else none
    | none => none
  | w + 1 =>
    match tail.get? (w + 1) with
    | some c => if c ≠ '\n' then some (w + 1) else chooseW tail w
    | none => chooseW tail w

/-- The lazy group `(.+?)` before `(?:\n|\r|$)`: at least one character,
then extend up to (excluding) the first `'\n'` or `'\r'`. -/
def captureFrom (tail : List Char) (w : Nat) : List Char :=
  match tail.drop w with
  | [] => []
  | c :: rest => c :: rest.takeWhile (fun d => d ≠ '\n' && d ≠ '\r')

/-- Tail matcher for `\*\*Summary:\*\*\s*(.+?)(?:\n|\r|$)` after the
literal `**Summary:**` (line 27). -/
def matchSummaryTail (tail : List Char) : Option (List Char) :=
  match chooseW tail (wsRunLen tail) with
  | some w => some (captureFrom tail w)
  | none => none

/-- Exactly `n` decimal digits (`\d{n}`); returns the digits and the rest. -/
def parseDigitsN (l : List Char) (n : Nat) : Option (List Char × List Char) :=
  let d := l.take n
  if d.length = n && d.all Char.isDigit then some (d, l.drop n) else none

/-- Match one literal character. -/
def expectChar (c : Char) : List Char → Option (List Char)
  | [] => none
  | x :: r => if x = c then some r else none

/-- Tail matcher for
`Date:\s*(\d{4}-\d{2}-\d{2}\s+\d{2}:\d{2}:\d{2})` after `Date:` (line 31).
The captured group starts at the year digits. -/
def matchDateTail (t : List Char) : Option (List Char) := do
  let r := t.drop (wsRunLen t)
  let (d1, r) ← parseDigitsN r 4
  let r ← expectChar '-' r
  let (d2, r) ← parseDigitsN r 2
  let r ← expectChar '-' r
  let (d3, r) ← parseDigitsN r 2
  let ws := r.takeWhile pyIsSpace
  if ws.isEmpty then none else do
    let r := r.drop ws.length
    let (t1, r) ← parseDigitsN r 2
    let r ← expectChar ':' r
    let (t2, r) ← parseDigitsN r 2
    let r ← expectChar ':' r
    let (t3, _) ← parseDigitsN r 2
    pure (d1 ++ '-' :: d2 ++ '-' :: d3 ++ ws ++ t1 ++ ':' :: t2 ++ ':' :: t3)

/-- Tail matcher for `Total links:\s*(\d+)` after `Total links:` (line 35). -/
def matchTotalLinksTail (t : List Char) : Option Nat :=
  let r := t.drop (wsRunLen t)
  let ds := r.takeWhile Char.isDigit
  if ds.isEmpty then none else some (digitsToNat ds)

/-- The `(?:,\d+)*` groups of the text-length pattern: repeatedly consume a
comma followed by a non-empty digit run, collecting the digits.  Structural
recursion on a fuel argument; each step consumes at least two characters,
so fuel equal to the input length (see `collectCommaGroups`) never runs
out before the input does. -/
def collectCommaGroupsF : Nat → List Char → List Char
  | 0, _ => []
  | _ + 1, [] => []
  | fuel + 1, c :: r =>
    if c = ',' then
      let ds := r.takeWhile Char.isDigit
      if ds.isEmpty then [] else ds ++ collectCommaGroupsF fuel (r.drop ds.length)
    else []

/-- The `(?:,\d+)*` groups of the text-length pattern. -/
def collectCommaGroups (l : List Char) : List Char :=
  collectCommaGroupsF l.length l

/-- Tail matcher for `Text length:\s*(\d+(?:,\d+)*)` after `Text length:`
(line 39); the value is `int(group.replace(',', ''))` (line 40). -/
def matchTextLenTail (t : List Char) : Option Nat :=
  let r := t.drop (wsRunLen t)
  let ds := r.takeWhile Char.isDigit
  if ds.isEmpty then none
  else some (digitsToNat (ds ++ collectCommaGroups (r.drop ds.length)))

/-! ## Section markers and line loops of `extract_data_from_docx_content` -/

/-- Literal `'# Extracted Links'` (line 52). -/
def linksMarker : List Char := "# Extracted Links".data

/-- Literal `'# Extracted Text Content'` (lines 56 and 70). -/
def textMarker : List Char := "# Extracted Text Content".data

/-- Literal `'**Summary:**'` (line 27). -/
def summaryLabel : List Char := "**Summary:**".data

/-- Literal `'https://'` (line 62). -/
def httpsLit : List Char := "https://".data

/-- The links loop (lines 48–63): each line is stripped; a stripped line
containing `'# Extracted Links'` turns the links flag on, one containing
`'# Extracted Text Content'` turns it off (both `continue`); otherwise,
when the links flag is on and the stripped line starts with `'https://'`,
the stripped line is appended. -/
def collectLinksGo : Bool → Bool → List (List Char) → List (List Char)
  | _, _, [] => []
  | ls, ts, line :: rest =>
    let l := pyStrip line
    if containsSub l linksMarker then collectLinksGo true false rest
    else if containsSub l textMarker then collectLinksGo false true rest
    else if ls && httpsLit.isPrefixOf l then l :: collectLinksGo ls ts rest
    else collectLinksGo ls ts rest

/-- Entry point of the links loop: both section flags start `False`
(lines 44–45). -/
def collectLinks (lines : List (List Char)) : List (List Char) :=
  collectLinksGo false false lines

/-- The text loop (lines 66–78): a raw line containing
`'# Extracted Text Content'` turns the text flag on (`continue`);
afterwards every line with non-blank strip is cleaned
(`line.replace('\\', '').strip()`) and appended when non-empty. -/
def collectTextGo : Bool → List (List Char) → List (List Char)
  | _, [] => []
  | ts, line :: rest =>
    if containsSub line textMarker then collectTextGo true rest
    else if ts && !(pyStrip line).isEmpty then
      let cleaned := pyStrip (line.filter (fun ch => ch != '\\'))
      if cleaned.isEmpty then collectTextGo ts rest
      else cleaned :: collectTextGo ts rest
    else collectTextGo ts rest

/-- Entry point of the text loop: the text flag starts `False` (line 67). -/
def collectText (lines : List (List Char)) : List (List Char) :=
  collectTextGo false lines

/-! ## The extraction result record -/

/-- The dictionary returned at lines 82–91 of `app.py`. -/
structure ExtractResult where
  summary : List Char
  extraction_date : List Char
  links : List (List Char)
  text_content : List Char
  total_links : Nat
  total_links_from_summary : Nat
  text_length : Nat
  text_length_from_summary : Nat
deriving DecidableEq

/-- The literal keys of the dictionary returned at lines 82–91. -/
def extractResultKeys : List (List Char) :=
  ["summary".data, "extraction_date".data, "links".data, "text_content".data,
   "total_links".data, "total_links_from_summary".data,
   "text_length".data, "text_length_from_summary".data]

/-- The body of `extract_data_from_docx_content` (lines 25–91). -/
def extractCore (content : List Char) : ExtractResult :=
  let summary :=
    match scanFor summaryLabel matchSummaryTail content with
    | some cap => pyStrip cap
    | none => "No summary available".data
  let extraction_date :=
    match scanFor "Date:".data matchDateTail summary with
    | some d => d
    | none => "Unknown date".data
  let total_links_from_summary :=
    (scanFor "Total links:".data matchTotalLinksTail summary).getD 0
  let text_length_from_summary :=
    (scanFor "Text length:".data matchTextLenTail summary).getD 0
  let lines := splitChar '\n' content
  let links := collectLinks lines
  let text_content := joinWith "\n\n".data (collectText lines)
  { summary := summary
    extraction_date := extraction_date
    links := links
    text_content := text_content
    total_links := links.length
    total_links_from_summary := total_links_from_summary
    text_length := text_content.length
    text_length_from_summary := text_length_from_summary }

/-- `extract_data_from_docx_content` (lines 23–95): the `try` body never
fails in the pure model, so the function always returns a record; the
`except` branch returning `None` is the `none` case of the `Option`. -/
def extract_data_from_docx_content (content : List Char) : Option ExtractResult :=
  some (extractCore content)

/-! ## The section state machine (lines 48–59, mirrored at 69–72)

The two loop flags `link_section_started` / `text_section_started` are
never simultaneously true, so the state is one of three sections. -/

/-- Section tag of the scanner. -/
inductive Sect
  | unknown
  | links
  | text
deriving DecidableEq

/-- One transition of the section state machine: a line containing
`'# Extracted Links'` moves to `links` (checked first, lines 52–55), a
line containing `'# Extracted Text Content'` moves to `text`
(lines 56–59); any other line leaves the state unchanged. -/
def stepSect (s : Sect) (l : List Char) : Sect :=
  if containsSub l linksMarker then .links
  else if containsSub l textMarker then .text
  else s

/-- Tag every non-marker line with the current section (marker lines are
consumed by `continue` and not tagged), as in the loop at lines 48–63. -/
def tagLinesGo : Sect → List (List Char) → List (Sect × List Char)
  | _, [] => []
  | s, line :: rest =>
    let l := pyStrip line
    if containsSub l linksMarker then tagLinesGo .links rest
    else if containsSub l textMarker then tagLinesGo .text rest
    else (s, line) :: tagLinesGo s rest

/-- The tagged lines of a content string, starting in the `unknown`
section. -/
def tagLines (content : List Char) : List (Sect × List Char) :=
  tagLinesGo .unknown (splitChar '\n' content)

/-! ## `extract_company_name_from_filename` (lines 10–21) -/

/-- Python `str.title()`: a cased (here: ASCII alphabetic) character is
uppercased after a non-cased character and lowercased after a cased one. -/
def pyTitleGo : Bool → List Char → List Char
  | _, [] => []
  | prevCased, c :: t =>
    if c.isAlpha then (if prevCased then c.toLower else c.toUpper) :: pyTitleGo true t
    else c :: pyTitleGo false t

/-- Python `str.title()`. -/
def pyTitle (l : List Char) : List Char := pyTitleGo false l

/-- Python `str.replace(a, b)` for single characters. -/
def replaceChar (a b : Char) (l : List Char) : List Char :=
  l.map (fun c => if c = a then b else c)

/-- Index of the last occurrence of a character, if any. -/
def lastIdxOf (c : Char) (l : List Char) : Option Nat :=
  match l.reverse.findIdx? (fun x => x == c) with
  | some i => some (l.length - 1 - i)
  | none => none

/-- `os.path.splitext(p)[0]` (posix): split at the last dot, unless that
dot belongs to the run of leading dots of the basename. -/
def splitextRoot (p : List Char) : List Char :=
  let base := match lastIdxOf '/' p with | none => 0 | some i => i + 1
  match lastIdxOf '.' p with
  | none => p
  | some dotIdx =>
    if dotIdx < base then p
    else if ((p.drop base).take (dotIdx - base)).any (fun x => x != '.') then p.take dotIdx
    else p

/-- Does a 25-character block match `_complete_\d{8}_\d{6}`? -/
def isTimestampSuffix (s : List Char) : Bool :=
  "_complete_".data.isPrefixOf s &&
  (s.drop 10).length == 15 &&
  ((s.drop 10).take 8).all Char.isDigit &&
  (s.drop 18).take 1 == ['_'] &&
  ((s.drop 19).all Char.isDigit)

/-- `re.sub(r'_complete_\d{8}_\d{6}$', '', name)` (line 16): the pattern
is anchored at the end with a fixed width of 25 characters, so it can
match only as the final 25 characters. -/
def stripTimestamp (name : List Char) : List Char :=
  if name.length ≥ 25 && isTimestampSuffix (name.drop (name.length - 25)) then
    name.take (name.length - 25)
  else name

/-- `extract_company_name_from_filename` (lines 10–21). -/
def extract_company_name_from_filename (filename : List Char) : List Char :=
  let name := splitextRoot filename
  let name := stripTimestamp name
  pyTitle (replaceChar '_' ' ' (replaceChar '-' ' ' name))

/-! ## Batch loading (`load_docx_from_github`, lines 140–183)

Network transport and DOCX decoding are collaborators: a source is a URL
together with the collaborator's answer — either a network error raised
by `requests.get` / `raise_for_status`, or the ordered paragraph texts of
the downloaded document.  The `st.*` display calls are presentation glue
with no effect on the returned value. -/

/-- The error kind raised by the fetch collaborator
(`requests.exceptions.RequestException`, caught at line 177). -/
inductive NetworkError
  | timeout
  | connectionFailed
deriving DecidableEq

/-- One element appended to `company_data` at lines 167–172. -/
structure CompanyRecord where
  company_name : List Char
  filename : List Char
  github_url : List Char
  data : ExtractResult
deriving DecidableEq

/-- `url.split('/')[-1]` (line 147). -/
def urlFilename (url : List Char) : List Char :=
  (splitChar '/' url).getLastD []

/-- `extract_data_from_docx_file` (lines 97–118) on the collaborator's
paragraph list: keep paragraphs with non-blank strip, join with `'\n'`
(lines 108–113), then extract. -/
def extract_data_from_docx_file (paragraphs : List (List Char)) : Option ExtractResult :=
  extract_data_from_docx_content
    (joinWith "\n".data (paragraphs.filter (fun p => !(pyStrip p).isEmpty)))

/-- `load_docx_from_github` (lines 140–183): each source is processed
inside its own `try`; a network error (or a `None` extraction) only skips
the append for that source.  The function returns `company_data` alone. -/
def load_docx_from_github
    (sources : List (List Char × Except NetworkError (List (List Char)))) :
    List CompanyRecord :=
  sources.filterMap (fun s =>
    match s.2 with
    | .error _ => none
    | .ok paragraphs =>
      match extract_data_from_docx_file paragraphs with
      | some d =>
        some { company_name := extract_company_name_from_filename (urlFilename s.1)
               filename := urlFilename s.1
               github_url := s.1
               data := d }
      | none => none)

/-- A narrative document whose Text section consists of the given
paragraph lines: the text marker line followed by one paragraph per line. -/
def mkTextDoc (ps : List (List Char)) : List Char :=
  textMarker ++ '\n' :: joinWith "\n".data ps

/-- Did the fetch collaborator deliver the document? -/
def fetchOk : Except NetworkError (List (List Char)) → Bool
  | .ok _ => true
  | .error _ => false

/-- The links flag value corresponding to a section state. -/
def sectLinksFlag : Sect → Bool
  | .links => true
  | _ => false

/-- The text flag value corresponding to a section state. -/
def sectTextFlag : Sect → Bool
  | .text => true
  | _ => false

/-! ## Concrete inputs used by counterexamples and witnesses -/

/-- A content whose first line merely contains the links marker as a
proper substring. -/
def cexC3 : List Char := "word # Extracted Links word\nhttps://x.y".data

/-- A content whose only `**Summary:**` line sits inside the Links
section. -/
def cexC5 : List Char := "# Extracted Links\n**Summary:** Total links: 99".data

/-- A batch of five sources in which the third raises a fetch timeout. -/
def exBatch : List (List Char × Except NetworkError (List (List Char))) :=
  [("u/a.docx".data, .ok ["**Summary:** Total links: 1".data,
      "# Extracted Links".data, "https://x.co".data]),
   ("u/b.docx".data, .ok ["hello".data]),
   ("u/c3.docx".data, .error .timeout),
   ("u/d.docx".data, .ok ["# Extracted Text Content".data, "Body text.".data]),
   ("u/e.docx".data, .ok [])]

/-- Paragraph lines one of which contains the text marker as a substring. -/
def cexC8 : List (List Char) := ["A".data, "# Extracted Text Content".data, "C".data]

/-- A CSV-grammar Links section whose quoted cell spans three physical
lines. -/
def cexC9 : List Char :=
  ("EXTRACTED_LINKS\n\"1,https://example.com/a\ncontinued line\nend of cell\"\nEXTRACTED_TEXT_CONTENT").data

/-- The record produced from degenerate input: every field at its
default. -/
def defaultRecord : ExtractResult :=
  { summary := "No summary available".data
    extraction_date := "Unknown date".data
    links := []
    text_content := []
    total_links := 0
    total_links_from_summary := 0
    text_length := 0
    text_length_from_summary := 0 }

/-! ## Projection equations for `extractCore` -/

theorem extractCore_summary (c : List Char) :
    (extractCore c).summary =
      match scanFor summaryLabel matchSummaryTail c with
      | some cap => pyStrip cap
      | none => "No summary available".data := rfl

theorem extractCore_date (c : List Char) :
    (extractCore c).extraction_date =
      match scanFor "Date:".data matchDateTail (extractCore c).summary with
      | some d => d
      | none => "Unknown date".data := rfl

theorem extractCore_total_from_summary (c : List Char) :
    (extractCore c).total_links_from_summary =
      (scanFor "Total links:".data matchTotalLinksTail (extractCore c).summary).getD 0 := rfl

theorem extractCore_textlen_from_summary (c : List Char) :
    (extractCore c).text_length_from_summary =
      (scanFor "Text length:".data matchTextLenTail (extractCore c).summary).getD 0 := rfl

theorem extractCore_links (c : List Char) :
    (extractCore c).links = collectLinks (splitChar '\n' c) := rfl

theorem extractCore_text (c : List Char) :
    (extractCore c).text_content =
      joinWith "\n\n".data (collectText (splitChar '\n' c)) := rfl

theorem extractCore_total_links (c : List Char) :
    (extractCore c).total_links = (extractCore c).links.length := rfl

theorem extractCore_text_length (c : List Char) :
    (extractCore c).text_length = (extractCore c).text_content.length := rfl

/-! ## Scanner lemmas -/

theorem containsSub_cons_false {c : Char} {t lit : List Char}
    (h : containsSub (c :: t) lit = false) :
    lit.isPrefixOf (c :: t) = false ∧ containsSub t lit = false := by
  simpa [containsSub, Bool.or_eq_false_iff] using h

/-- A leftmost literal search fails when the literal does not occur. -/
theorem scanFor_eq_none {α : Type} (lit : List Char) (m : List Char → Option α) :
    ∀ l : List Char, containsSub l lit = false → scanFor lit m l = none
  | [], _ => rfl
  | c :: t, h => by
    obtain ⟨h1, h2⟩ := containsSub_cons_false h
    simp [scanFor, h1, scanFor_eq_none lit m t h2]

/-- With no `**Summary:**` occurrence, all four summary-derived fields
take their default values. -/
theorem metadataDefaults (content : List Char)
    (h : containsSub content summaryLabel = false) :
    (extractCore content).summary = "No summary available".data ∧
    (extractCore content).extraction_date = "Unknown date".data ∧
    (extractCore content).total_links_from_summary = 0 ∧
    (extractCore content).text_length_from_summary = 0 := by
  have hs : scanFor summaryLabel matchSummaryTail content = none :=
    scanFor_eq_none _ _ _ h
  have h1 : (extractCore content).summary = "No summary available".data := by
    rw [extractCore_summary, hs]
  refine ⟨h1, ?_, ?_, ?_⟩
  · rw [extractCore_date, h1]; decide
  · rw [extractCore_total_from_summary, h1]; decide
  · rw [extractCore_textlen_from_summary, h1]; decide

/-- The links loop collects nothing while no line contains the links
marker: the links flag can never turn on. -/
theorem collectLinksGo_false_nil : ∀ (ts : Bool) (lines : List (List Char)),
    (∀ l ∈ lines, containsSub (pyStrip l) linksMarker = false) →
    collectLinksGo false ts lines = []
  | _, [], _ => rfl
  | ts, line :: rest, h => by
    have h0 := h line (List.mem_cons_self line rest)
    have hr : ∀ l ∈ rest, containsSub (pyStrip l) linksMarker = false :=
      fun l hl => h l (List.mem_cons_of_mem _ hl)
    by_cases h2 : containsSub (pyStrip line) textMarker
    · simp [collectLinksGo, h0, h2, collectLinksGo_false_nil true rest hr]
    · simp [collectLinksGo, h0, h2, collectLinksGo_false_nil ts rest hr]

/-- The text loop collects nothing while no line contains the text
marker: the text flag can never turn on. -/
theorem collectTextGo_false_nil : ∀ lines : List (List Char),
    (∀ l ∈ lines, containsSub l textMarker = false) →
    collectTextGo false lines = []
  | [], _ => rfl
  | line :: rest, h => by
    simp [collectTextGo, h line (List.mem_cons_self line rest),
      collectTextGo_false_nil rest (fun l hl => h l (List.mem_cons_of_mem _ hl))]

theorem sectLinksFlag_eq (s : Sect) : sectLinksFlag s = decide (s = Sect.links) := by
  cases s <;> rfl

/-- The links loop equals the https-filter over the Links-tagged lines. -/
theorem collectLinksGo_eq_tagFilter : ∀ (lines : List (List Char)) (s : Sect),
    collectLinksGo (sectLinksFlag s) (sectTextFlag s) lines =
      ((tagLinesGo s lines).filter
        (fun p => decide (p.1 = Sect.links) && httpsLit.isPrefixOf (pyStrip p.2))).map
        (fun p => pyStrip p.2)
  | [], s => by simp [collectLinksGo, tagLinesGo]
  | line :: rest, s => by
    by_cases h1 : containsSub (pyStrip line) linksMarker
    · have ih := collectLinksGo_eq_tagFilter rest .links
      simp only [sectLinksFlag, sectTextFlag] at ih
      simp [collectLinksGo, tagLinesGo, h1, ih]
    · by_cases h2 : containsSub (pyStrip line) textMarker
      · have ih := collectLinksGo_eq_tagFilter rest .text
        simp only [sectLinksFlag, sectTextFlag] at ih
        simp [collectLinksGo, tagLinesGo, h1, h2, ih]
      · have ih := collectLinksGo_eq_tagFilter rest s
        cases s with
        | links =>
          simp only [sectLinksFlag, sectTextFlag] at ih
          by_cases h3 : httpsLit.isPrefixOf (pyStrip line)
          · simp [collectLinksGo, tagLinesGo, h1, h2, h3, List.filter_cons, ih,
              sectLinksFlag, sectTextFlag]
          · simp [collectLinksGo, tagLinesGo, h1, h2, h3, List.filter_cons, ih,
              sectLinksFlag, sectTextFlag]
        | unknown =>
          simp only [sectLinksFlag, sectTextFlag] at ih
          simp [collectLinksGo, tagLinesGo, h1, h2, List.filter_cons, ih,
            sectLinksFlag, sectTextFlag]
        | text =>
          simp only [sectLinksFlag, sectTextFlag] at ih
          simp [collectLinksGo, tagLinesGo, h1, h2, List.filter_cons, ih,
            sectLinksFlag, sectTextFlag]

/-! ## Split/join lemmas -/

theorem consHead_ne_nil (c : Char) (l : List (List Char)) : consHead c l ≠ [] := by
  cases l <;> simp [consHead]

theorem splitChar_ne_nil (c : Char) : ∀ l : List Char, splitChar c l ≠ []
  | [] => by simp [splitChar]
  | x :: t => by
    by_cases h : x = c <;> simp [splitChar, h, consHead_ne_nil]

theorem splitNl2_ne_nil : ∀ l : List Char, splitNl2 l ≠ []
  | [] => by simp [splitNl2]
  | [c] => by simp [splitNl2]
  | c :: d :: rest => by
    by_cases h : c = '\n' ∧ d = '\n' <;> simp [splitNl2, h, consHead_ne_nil]

theorem consHead_consChunk (x : Char) (p : List Char) (l : List (List Char)) :
    consHead x (consChunk p l) = consChunk (x :: p) l := by
  cases l <;> rfl

/-- Splitting after prepending a separator-free chunk prepends the chunk
to the first piece. -/
theorem splitChar_chunk (c : Char) : ∀ (p s : List Char), (∀ x ∈ p, x ≠ c) →
    splitChar c (p ++ s) = consChunk p (splitChar c s)
  | [], s, _ => by
    cases hs : splitChar c s with
    | nil => exact absurd hs (splitChar_ne_nil c s)
    | cons h t => simp [hs, consChunk]
  | x :: p', s, h => by
    have hx : x ≠ c := h x (List.mem_cons_self x p')
    have ih := splitChar_chunk c p' s (fun y hy => h y (List.mem_cons_of_mem _ hy))
    simp [splitChar, hx, ih, consHead_consChunk]

theorem splitChar_cons_sep (c : Char) (s : List Char) :
    splitChar c (c :: s) = [] :: splitChar c s := by
  simp [splitChar]

/-- Splitting a separator-joined list of separator-free, non-degenerate
chunks recovers the list. -/
theorem splitChar_join (c : Char) : ∀ ps : List (List Char), ps ≠ [] →
    (∀ p ∈ ps, ∀ x ∈ p, x ≠ c) → splitChar c (joinWith [c] ps) = ps
  | [], h, _ => absurd rfl h
  | [p], _, h => by
    have := splitChar_chunk c p [] (h p (List.mem_cons_self p []))
    simpa [joinWith, splitChar, consChunk] using this
  | p :: q :: rest, _, h => by
    have hq : q :: rest ≠ [] := by simp
    have ih := splitChar_join c (q :: rest) hq
      (fun r hr => h r (List.mem_cons_of_mem _ hr))
    have hchunk := splitChar_chunk c p ([c] ++ joinWith [c] (q :: rest))
      (h p (List.mem_cons_self p _))
    have hj : joinWith [c] (p :: q :: rest) = p ++ ([c] ++ joinWith [c] (q :: rest)) := by
      simp [joinWith]
    have hcc : [c] ++ joinWith [c] (q :: rest) = c :: joinWith [c] (q :: rest) := rfl
    rw [hj, hchunk, hcc, splitChar_cons_sep, ih]
    simp [consChunk]

theorem splitNl2_chunk : ∀ (p s : List Char), (∀ x ∈ p, x ≠ '\n') →
    splitNl2 (p ++ s) = consChunk p (splitNl2 s)
  | [], s, _ => by
    cases hs : splitNl2 s with
    | nil => exact absurd hs (splitNl2_ne_nil s)
    | cons h t => simp [hs, consChunk]
  | x :: p', s, h => by
    have hx : x ≠ '\n' := h x (List.mem_cons_self x p')
    have ih := splitNl2_chunk p' s (fun y hy => h y (List.mem_cons_of_mem _ hy))
    cases hps : p' ++ s with
    | nil =>
      obtain ⟨hp', hs⟩ := List.append_eq_nil.mp hps
      subst hp'; subst hs
      simp [splitNl2, consChunk]
    | cons y rest =>
      have : splitNl2 (x :: p' ++ s) = consHead x (splitNl2 (p' ++ s)) := by
        rw [List.cons_append, hps]
        simp [splitNl2, hx]
      rw [List.cons_append] at this ⊢
      rw [this, ih, consHead_consChunk]

theorem splitNl2_sep (s : List Char) :
    splitNl2 ('\n' :: '\n' :: s) = [] :: splitNl2 s := by
  simp [splitNl2]

/-- Splitting on the blank-line separator recovers a non-empty list of
newline-free paragraphs. -/
theorem splitNl2_join : ∀ ps : List (List Char), ps ≠ [] →
    (∀ p ∈ ps, ∀ x ∈ p, x ≠ '\n') → splitNl2 (joinWith "\n\n".data ps) = ps
  | [], h, _ => absurd rfl h
  | [p], _, h => by
    have := splitNl2_chunk p [] (h p (List.mem_cons_self p []))
    simpa [joinWith, splitNl2, consChunk] using this
  | p :: q :: rest, _, h => by
    have hq : q :: rest ≠ [] := by simp
    have ih := splitNl2_join (q :: rest) hq
      (fun r hr => h r (List.mem_cons_of_mem _ hr))
    have hchunk := splitNl2_chunk p ("\n\n".data ++ joinWith "\n\n".data (q :: rest))
      (h p (List.mem_cons_self p _))
    have hj : joinWith "\n\n".data (p :: q :: rest) =
        p ++ ("\n\n".data ++ joinWith "\n\n".data (q :: rest)) := by
      simp [joinWith]
    rw [hj, hchunk]
    have hcc : ("\n\n".data ++ joinWith "\n\n".data (q :: rest)) =
        '\n' :: '\n' :: joinWith "\n\n".data (q :: rest) := rfl
    rw [hcc, splitNl2_sep, ih]
    simp [consChunk]

/-- With the text flag on, clean trimmed backslash-free non-marker lines
pass through the text loop unchanged. -/
theorem collectTextGo_true_clean : ∀ ps : List (List Char),
    (∀ p ∈ ps, containsSub p textMarker = false ∧ pyStrip p = p ∧ p ≠ [] ∧
      (∀ x ∈ p, x ≠ '\\')) →
    collectTextGo true ps = ps
  | [], _ => rfl
  | p :: rest, h => by
    obtain ⟨hm, hst, hne, hbs⟩ := h p (List.mem_cons_self p rest)
    have ih := collectTextGo_true_clean rest (fun q hq => h q (List.mem_cons_of_mem _ hq))
    have hfilter : p.filter (fun ch => ch != '\\') = p :=
      List.filter_eq_self.mpr (fun x hx => by simpa using hbs x hx)
    have hempty : p.isEmpty = false := by
      cases p with
      | nil => exact absurd rfl hne
      | cons a t => rfl
    simp [collectTextGo, hm, hst, hfilter, hempty, ih]

/-! ## Claims -/

/-- **C1**: whenever extraction returns a record, `total_links` equals the
length of `links` and `text_length` equals the length of `text_content`. -/
theorem C1_derived_counts (content : List Char) (r : ExtractResult)
    (h : extract_data_from_docx_content content = some r) :
    r.total_links = r.links.length ∧ r.text_length = r.text_content.length := by
  have h' : extractCore content = r := by
    simpa [extract_data_from_docx_content] using h
  subst h'
  exact ⟨rfl, rfl⟩

/-- Witness for C1 at the empty content. -/
theorem C1_derived_counts_witness :
    (extractCore []).total_links = (extractCore []).links.length ∧
    (extractCore []).text_length = (extractCore []).text_content.length :=
  C1_derived_counts [] (extractCore []) rfl

/-- **C2**: the produced links list is exactly (in source order) the
trimmed Links-tagged lines that start with `https://`, so the derived
link count is the number of such lines. -/
theorem C2_links_are_tagged_https (content : List Char) :
    (extractCore content).links =
      ((tagLines content).filter
        (fun p => decide (p.1 = Sect.links) && httpsLit.isPrefixOf (pyStrip p.2))).map
        (fun p => pyStrip p.2) ∧
    (extractCore content).total_links =
      ((tagLines content).filter
        (fun p => decide (p.1 = Sect.links) && httpsLit.isPrefixOf (pyStrip p.2))).length := by
  have hmain := collectLinksGo_eq_tagFilter (splitChar '\n' content) .unknown
  simp only [sectLinksFlag, sectTextFlag] at hmain
  have hlinks : (extractCore content).links =
      ((tagLines content).filter
        (fun p => decide (p.1 = Sect.links) && httpsLit.isPrefixOf (pyStrip p.2))).map
        (fun p => pyStrip p.2) := by
    rw [extractCore_links]; exact hmain
  refine ⟨hlinks, ?_⟩
  rw [extractCore_total_links, hlinks, List.length_map]

/-- **C3** counterexample: a line that merely contains
`'# Extracted Links'` as a proper substring (equal to none of the four
marker literals) does advance the state, and the CSV token
`'EXTRACTED_LINKS'` does not. -/
theorem C3_counterexample :
    stepSect Sect.unknown "xx # Extracted Links yy".data = Sect.links ∧
    "xx # Extracted Links yy".data ≠ "# Extracted Links".data ∧
    "xx # Extracted Links yy".data ≠ "# Extracted Text Content".data ∧
    "xx # Extracted Links yy".data ≠ "EXTRACTED_LINKS".data ∧
    "xx # Extracted Links yy".data ≠ "EXTRACTED_TEXT_CONTENT".data ∧
    stepSect Sect.unknown "EXTRACTED_LINKS".data = Sect.unknown ∧
    (extractCore cexC3).links = ["https://x.y".data] := by decide

/-- **C3** amended: the section state advances on any line whose trimmed
form contains `'# Extracted Links'` (priority) or
`'# Extracted Text Content'` as a substring — such lines are consumed,
not tagged — and every other line is tagged with the current state, which
it leaves unchanged; the CSV tokens are not part of the vocabulary. -/
theorem C3_substring_advances (s : Sect) (line : List Char)
    (rest : List (List Char)) :
    tagLinesGo s (line :: rest) =
      (if containsSub (pyStrip line) linksMarker
          || containsSub (pyStrip line) textMarker
        then ([] : List (Sect × List Char)) else [(s, line)]) ++
      tagLinesGo (stepSect s (pyStrip line)) rest := by
  by_cases h1 : containsSub (pyStrip line) linksMarker
  · simp [tagLinesGo, stepSect, h1]
  · by_cases h2 : containsSub (pyStrip line) textMarker
    · simp [tagLinesGo, stepSect, h1, h2]
    · simp [tagLinesGo, stepSect, h1, h2]

/-- **C4** counterexample: on input with no Header segment the summary
metadata does default, but the returned dictionary has no
`lowConfidence` key (nor a `status` key) to mark. -/
theorem C4_counterexample :
    (extractCore []).summary = "No summary available".data ∧
    (extractCore []).extraction_date = "Unknown date".data ∧
    (extractCore []).total_links_from_summary = 0 ∧
    (extractCore []).text_length_from_summary = 0 ∧
    "lowConfidence".data ∉ extractResultKeys ∧
    "status".data ∉ extractResultKeys := by decide

/-- **C4** amended: on any input without the `**Summary:**` label,
extraction raises no exception and the summary metadata fields are all at
their defaults; the record carries no lowConfidence flag (see the
counterexample). -/
theorem C4_no_header_defaults (content : List Char)
    (h : containsSub content summaryLabel = false) :
    (extractCore content).summary = "No summary available".data ∧
    (extractCore content).extraction_date = "Unknown date".data ∧
    (extractCore content).total_links_from_summary = 0 ∧
    (extractCore content).text_length_from_summary = 0 :=
  metadataDefaults content h

/-- Witness for C4 at a concrete header-free content. -/
theorem C4_no_header_defaults_witness :
    (extractCore "hello".data).summary = "No summary available".data ∧
    (extractCore "hello".data).extraction_date = "Unknown date".data ∧
    (extractCore "hello".data).total_links_from_summary = 0 ∧
    (extractCore "hello".data).text_length_from_summary = 0 :=
  C4_no_header_defaults "hello".data (by decide)

/-- **C5** counterexample: a `Total links: 99` label inside the only
Links-tagged line of the input does set the declared metadata field. -/
theorem C5_counterexample :
    tagLines cexC5 = [(Sect.links, "**Summary:** Total links: 99".data)] ∧
    (extractCore cexC5).total_links_from_summary = 99 := by decide

/-- **C5** amended: the declared metadata is derived solely from the
summary string — the capture at the first `**Summary:**` occurrence
anywhere in the content, regardless of section tags: equal summaries give
equal declared metadata. -/
theorem C5_metadata_only_from_summary (c₁ c₂ : List Char)
    (h : (extractCore c₁).summary = (extractCore c₂).summary) :
    (extractCore c₁).extraction_date = (extractCore c₂).extraction_date ∧
    (extractCore c₁).total_links_from_summary =
      (extractCore c₂).total_links_from_summary ∧
    (extractCore c₁).text_length_from_summary =
      (extractCore c₂).text_length_from_summary := by
  refine ⟨?_, ?_, ?_⟩
  · rw [extractCore_date, extractCore_date, h]
  · rw [extractCore_total_from_summary, extractCore_total_from_summary, h]
  · rw [extractCore_textlen_from_summary, extractCore_textlen_from_summary, h]

/-- Witness for C5 at two concrete contents with equal summaries. -/
theorem C5_metadata_only_from_summary_witness :
    (extractCore []).extraction_date = (extractCore "plain".data).extraction_date ∧
    (extractCore []).total_links_from_summary =
      (extractCore "plain".data).total_links_from_summary ∧
    (extractCore []).text_length_from_summary =
      (extractCore "plain".data).text_length_from_summary :=
  C5_metadata_only_from_summary [] "plain".data (by decide)

/-- **C6** counterexample: in the 5-source batch with a timeout on source
3, the function returns exactly the four successful records and nothing
else — no `(id_3, SourceUnavailable)` entry is part of the result. -/
theorem C6_counterexample :
    (load_docx_from_github exBatch).map CompanyRecord.filename =
      ["a.docx".data, "b.docx".data, "d.docx".data, "e.docx".data] ∧
    (load_docx_from_github exBatch).length = 4 ∧
    ((load_docx_from_github exBatch).map CompanyRecord.github_url).contains
      "u/c3.docx".data = false := by decide

/-- **C6** amended: an acquisition failure of one source never aborts the
others — a failing source contributes nothing and the rest of the batch
is unchanged — and the batch returns exactly one record per successfully
fetched source (errors are only displayed, never returned). -/
theorem C6_batch_isolation :
    (∀ (pre post : List (List Char × Except NetworkError (List (List Char))))
      (url : List Char) (e : NetworkError),
      load_docx_from_github (pre ++ (url, Except.error e) :: post) =
        load_docx_from_github pre ++ load_docx_from_github post) ∧
    (∀ sources, (load_docx_from_github sources).length =
      sources.countP (fun s => fetchOk s.2)) := by
  constructor
  · intro pre post url e
    simp [load_docx_from_github, List.filterMap_append, List.filterMap_cons]
  · intro sources
    induction sources with
    | nil => rfl
    | cons s t ih =>
      obtain ⟨u, res⟩ := s
      cases res with
      | error e =>
        simpa [load_docx_from_github, List.filterMap_cons, List.countP_cons,
          fetchOk] using ih
      | ok paras =>
        simpa [load_docx_from_github, List.filterMap_cons, List.countP_cons,
          fetchOk, extract_data_from_docx_file, extract_data_from_docx_content]
          using ih

/-- **C7**: the identity is the title-casing of the separator-to-space
replacement of the timestamp-stripped extension-free filename, and the
example filename maps to `"Bajaj Auto"`. -/
theorem C7_filename_identity :
    (∀ f : List Char, extract_company_name_from_filename f =
      pyTitle (replaceChar '_' ' ' (replaceChar '-' ' '
        (stripTimestamp (splitextRoot f))))) ∧
    extract_company_name_from_filename
      "bajaj-auto_complete_20250819_172757.docx".data = "Bajaj Auto".data :=
  ⟨fun _ => rfl, by decide⟩

/-- **C8** counterexample: the paragraph list
`["A", "# Extracted Text Content", "C"]` satisfies all the stated
conditions (non-empty, trimmed, backslash-free, no double-newline), yet
assembling and re-splitting yields `["A", "C"]`. -/
theorem C8_counterexample :
    cexC8.all (fun p => !p.isEmpty && decide (pyStrip p = p) &&
      p.all (fun x => x != '\\') && !containsSub p "\n\n".data) = true ∧
    splitNl2 ((extractCore (mkTextDoc cexC8)).text_content) =
      ["A".data, "C".data] ∧
    ["A".data, "C".data] ≠ cexC8 := by decide

/-- **C8** amended: for every non-empty list of non-empty, trimmed,
backslash-free, newline-free paragraph lines none of which contains the
text-marker substring, assembling the body and splitting on the
blank-line separator reproduces the list exactly; consecutive blank
source lines produce no duplicate separator. -/
theorem C8_roundtrip :
    (∀ ps : List (List Char), ps ≠ [] →
      (∀ p ∈ ps, p ≠ [] ∧ pyStrip p = p ∧ containsSub p textMarker = false ∧
        (∀ x ∈ p, x ≠ '\\' ∧ x ≠ '\n')) →
      splitNl2 ((extractCore (mkTextDoc ps)).text_content) = ps) ∧
    (extractCore (mkTextDoc ["A".data, [], [], "B".data])).text_content =
      "A\n\nB".data := by
  constructor
  · intro ps hne hcond
    have hNlFree : ∀ p ∈ ps, ∀ x ∈ p, x ≠ '\n' :=
      fun p hp x hx => ((hcond p hp).2.2.2 x hx).2
    have hlines : splitChar '\n' (mkTextDoc ps) = textMarker :: ps := by
      have hm : ∀ x ∈ textMarker, x ≠ '\n' := by decide
      have h1 : mkTextDoc ps = textMarker ++ ('\n' :: joinWith "\n".data ps) := rfl
      have h2 : joinWith "\n".data ps = joinWith ['\n'] ps := rfl
      rw [h1, splitChar_chunk '\n' textMarker _ hm, h2]
      have h3 : ('\n' :: joinWith ['\n'] ps) = '\n' :: joinWith ['\n'] ps := rfl
      rw [splitChar_cons_sep, splitChar_join '\n' ps hne hNlFree]
      simp [consChunk]
    have htm : containsSub textMarker textMarker = true := by decide
    have hct : collectText (splitChar '\n' (mkTextDoc ps)) = ps := by
      rw [hlines]
      have hstep : collectTextGo false (textMarker :: ps) = collectTextGo true ps := by
        simp [collectTextGo, htm]
      show collectTextGo false (textMarker :: ps) = ps
      rw [hstep]
      exact collectTextGo_true_clean ps (fun p hp =>
        ⟨(hcond p hp).2.2.1, (hcond p hp).2.1, (hcond p hp).1,
          fun x hx => ((hcond p hp).2.2.2 x hx).1⟩)
    rw [extractCore_text, hct]
    exact splitNl2_join ps hne hNlFree
  · decide

/-- Witness for C8 at the spec's example paragraphs. -/
theorem C8_roundtrip_witness :
    splitNl2 ((extractCore (mkTextDoc ["A".data, "B".data, "C".data])).text_content) =
      ["A".data, "B".data, "C".data] :=
  C8_roundtrip.1 ["A".data, "B".data, "C".data] (by decide) (by decide)

/-- **C9** counterexample: the three-line quoted CSV Links cell yields
zero link entries, not one — there is no quote-aware collector. -/
theorem C9_counterexample :
    (extractCore cexC9).links.length = 0 ∧
    (extractCore cexC9).links.length ≠ 1 := by decide

/-- **C9** amended: the code recognises no CSV grammar: on any input none
of whose lines contains the narrative links marker — in particular any
CSV-grammar input using the `EXTRACTED_LINKS` token — the links list is
empty, so a quoted CSV cell produces zero entries. -/
theorem C9_no_csv_collector (content : List Char)
    (h : ∀ l ∈ splitChar '\n' content,
      containsSub (pyStrip l) linksMarker = false) :
    (extractCore content).links = [] := by
  rw [extractCore_links]
  exact collectLinksGo_false_nil false (splitChar '\n' content) h

/-- Witness for C9 at the concrete CSV input. -/
theorem C9_no_csv_collector_witness :
    (extractCore cexC9).links = [] :=
  C9_no_csv_collector cexC9 (by decide)

/-- **C10**: the empty input — and more generally any input with no
marker lines and no summary label — produces the all-default record:
sentinel summary and date, empty links, empty text, all four counts
zero. -/
theorem C10_degenerate_input :
    extractCore [] = defaultRecord ∧
    (∀ content : List Char,
      containsSub content summaryLabel = false →
      (∀ l ∈ splitChar '\n' content,
        containsSub (pyStrip l) linksMarker = false) →
      (∀ l ∈ splitChar '\n' content, containsSub l textMarker = false) →
      extractCore content = defaultRecord) := by
  constructor
  · decide
  · intro content hs hl ht
    obtain ⟨h1, h2, h3, h4⟩ := metadataDefaults content hs
    have hlinks : (extractCore content).links = [] := by
      rw [extractCore_links]
      exact collectLinksGo_false_nil false _ hl
    have htext : (extractCore content).text_content = [] := by
      rw [extractCore_text]
      rw [show collectText (splitChar '\n' content) = ([] : List (List Char)) from
        collectTextGo_false_nil (splitChar '\n' content) ht]
      rfl
    have htl : (extractCore content).total_links = 0 := by
      rw [extractCore_total_links, hlinks]; rfl
    have htxl : (extractCore content).text_length = 0 := by
      rw [extractCore_text_length, htext]; rfl
    have heta : extractCore content =
      ⟨(extractCore content).summary, (extractCore content).extraction_date,
       (extractCore content).links, (extractCore content).text_content,
       (extractCore content).total_links,
       (extractCore content).total_links_from_summary,
       (extractCore content).text_length,
       (extractCore content).text_length_from_summary⟩ := rfl
    rw [heta, h1, h2, h3, h4, hlinks, htext, htl, htxl]
    rfl

/-- Witness for C10 at a concrete marker-free content. -/
theorem C10_degenerate_input_witness :
    extractCore "just words".data = defaultRecord :=
  C10_degenerate_input.2 "just words".data (by decide) (by decide) (by decide)

end NewsAi
